import Mathlib

/-!
Shallow embedding of the buffer-object module of the d3dgl repository
(file bufferobject.cpp, class D3DGLBufferObject) and proofs about its
lock / unlock / init / reset / destruction lifecycle.

Machine integers (UINT, DWORD, GLuint) are modelled as Nat; the one
place where 32-bit wraparound matters, the alignment computation
`(mLength+15) & ~15`, reduces modulo 2^32 explicitly.  The host-side
staging allocation (a shared_ptr obtained from DataAllocator) is
modelled as an allocation identifier, a byte capacity and the byte
contents; a fresh allocation receives a fresh identifier drawn from a
counter threaded through the state.  Bytes the real allocator leaves
uninitialised are modelled as 0; no theorem below reads a byte that the
code did not previously write or zero.  Commands submitted to the
command queue of the parent device are collected in an output list;
Lock submits no commands, so its result carries none.  The busy-wait
loops on the in-flight counter are modelled by their postcondition (the
loop exits exactly when the consumer thread has drained the counter to
zero), with a flag recording whether the loop was entered.
-/

namespace D3DGL

/-! ### Constants from the Direct3D 9 headers -/

def D3DLOCK_READONLY : Nat := 0x10
def D3DLOCK_NOSYSLOCK : Nat := 0x800
def D3DLOCK_NOOVERWRITE : Nat := 0x1000
def D3DLOCK_DISCARD : Nat := 0x2000
def D3DUSAGE_WRITEONLY : Nat := 0x8
def D3DUSAGE_DYNAMIC : Nat := 0x200
def D3DPOOL_DEFAULT : Nat := 0
def D3DPOOL_MANAGED : Nat := 1
def D3DPOOL_SYSTEMMEM : Nat := 2
def D3DPOOL_SCRATCH : Nat := 3
def D3D_OK : Nat := 0
def D3DERR_INVALIDCALL : Nat := 0x8876086C
def D3DFMT_UNKNOWN : Nat := 0
def D3DFMT_VERTEXDATA : Nat := 100
def D3DFMT_INDEX16 : Nat := 101
def D3DFMT_INDEX32 : Nat := 102
def D3DFVF_XYZ : Nat := 0x002
def D3DFVF_XYZRHW : Nat := 0x004
def D3DFVF_XYZW : Nat := 0x4002
def D3DFVF_NORMAL : Nat := 0x010
def D3DFVF_DIFFUSE : Nat := 0x040
def D3DFVF_SPECULAR : Nat := 0x080
def D3DFVF_TEXCOUNT_MASK : Nat := 0xf00
def D3DFVF_TEXCOUNT_SHIFT : Nat := 8
def D3DFVF_TEXTUREFORMAT2 : Nat := 0
def D3DFVF_TEXTUREFORMAT3 : Nat := 1
def D3DFVF_TEXTUREFORMAT4 : Nat := 2
def D3DFVF_TEXTUREFORMAT1 : Nat := 3

/-- 32-bit UINT modulus. -/
def UINT_MOD : Nat := 2 ^ 32

/-- The computation `(n+15) & ~15` performed on a 32-bit UINT, as in
`initGL`, `resizeBufferGL`, `init_common`, `resetBufferData` and the
discard path of `Lock`. -/
def align16 (n : Nat) : Nat := ((n + 15) % UINT_MOD) &&& 0xFFFFFFF0

/-- Mathematical rounding of `n` up to the next multiple of 16, the
16-byte-aligned rounding the specification speaks about. -/
def roundUp16 (n : Nat) : Nat := (n + 15) / 16 * 16

/-! ### Data model -/

/-- The tri-state lock flag `mLock` (atomic in the source). -/
inductive LockType where
  | LT_Unlocked
  | LT_ReadOnly
  | LT_Full
deriving DecidableEq, Repr

/-- The host-side staging allocation `mBufData` (a shared_ptr of
GLubyte in the source): an allocation identity, its byte capacity and
its byte contents. -/
structure Staging where
  allocId : Nat
  capacity : Nat
  bytes : List Nat
deriving DecidableEq, Repr

/-- Commands submitted to the command queue of the parent device. -/
inductive Command where
  | initBufferObject (allocId : Nat)
  | resizeBuffer
  | loadBufferData (offset : Nat) (length : Nat) (allocId : Nat)
  | destroyBuffer (bufferId : Nat)
deriving DecidableEq, Repr

/-- The fields of D3DGLBufferObject relevant to the buffer lifecycle,
plus `nextAlloc`, the model allocator counter producing fresh
allocation identities. -/
structure BufferState where
  mLength : Nat
  mUsage : Nat
  mFormat : Nat
  mFvf : Nat
  mPool : Nat
  mBufferId : Nat
  mLock : LockType
  mLockedOffset : Nat
  mLockedLength : Nat
  mUpdateInProgress : Nat
  mBufData : Staging
  nextAlloc : Nat
deriving DecidableEq, Repr

/-- State established by the D3DGLBufferObject constructor: a null
staging pointer (identity 0, capacity 0) and everything zeroed or
Unlocked. -/
def initialState : BufferState :=
  { mLength := 0, mUsage := 0, mFormat := D3DFMT_UNKNOWN, mFvf := 0
    mPool := D3DPOOL_DEFAULT, mBufferId := 0, mLock := .LT_Unlocked
    mLockedOffset := 0, mLockedLength := 0, mUpdateInProgress := 0
    mBufData := ⟨0, 0, []⟩, nextAlloc := 1 }

/-! ### Operations translated from the source -/

/-- `D3DGLBufferObject::init_common`.  Assigns length, usage and pool,
then validates the pool/usage combination, then allocates a
zero-initialised staging buffer of the aligned length and performs a
synchronous submission of InitBufferObjectCmd; `initGL` runs to
completion before the call returns, generating a nonzero GL buffer name
(modelled as 1) and clearing `mUpdateInProgress`. -/
def init_common (s : BufferState) (length usage pool : Nat) :
    Bool × BufferState × List Command :=
  let s := { s with mLength := length, mUsage := usage, mPool := pool }
  if s.mPool = D3DPOOL_SCRATCH then
    (false, s, [])
  else if s.mPool = D3DPOOL_MANAGED ∧ s.mUsage &&& D3DUSAGE_DYNAMIC ≠ 0 then
    (false, s, [])
  else
    let data_len := align16 s.mLength
    let s := { s with
      mBufData := ⟨s.nextAlloc, data_len, List.replicate data_len 0⟩
      nextAlloc := s.nextAlloc + 1
      mUpdateInProgress := 1 }
    let s := { s with mBufferId := 1, mUpdateInProgress := 0 }
    (true, s, [Command.initBufferObject s.mBufData.allocId])

/-- Number of floats per texture-coordinate set for a two-bit texture
format code, following the switch in `init_vbo`. -/
def texfmtFloats (c : Nat) : Nat :=
  if c = D3DFVF_TEXTUREFORMAT1 then 1
  else if c = D3DFVF_TEXTUREFORMAT2 then 2
  else if c = D3DFVF_TEXTUREFORMAT3 then 3
  else if c = D3DFVF_TEXTUREFORMAT4 then 4
  else 0

/-- The loop of `init_vbo` over the declared texture-coordinate sets:
for each set `t` below `count` it adds `sizeof(float) * num` where
`num` comes from bits `16 + t*2` of the FVF code. -/
def texcoordsBytes (fvf count : Nat) : Nat :=
  (List.range count).foldl
    (fun acc t => acc + 4 * texfmtFloats ((fvf >>> (16 + t * 2)) &&& 0x03)) 0

/-- The per-vertex byte size computed by `D3DGLBufferObject::init_vbo`
from the FVF flags. -/
def fvfVertexSize (fvf : Nat) : Nat :=
  let size := 0
  let size :=
    if fvf &&& D3DFVF_XYZRHW = D3DFVF_XYZRHW then size + 4 * 4
    else if fvf &&& D3DFVF_XYZW = D3DFVF_XYZW then size + 4 * 4
    else if fvf &&& D3DFVF_XYZ = D3DFVF_XYZ then size + 4 * 3
    else size
  let size := if fvf &&& D3DFVF_NORMAL ≠ 0 then size + 4 * 3 else size
  let size := if fvf &&& D3DFVF_DIFFUSE ≠ 0 then size + 1 * 4 else size
  let size := if fvf &&& D3DFVF_SPECULAR ≠ 0 then size + 1 * 4 else size
  size + texcoordsBytes fvf ((fvf &&& D3DFVF_TEXCOUNT_MASK) >>> D3DFVF_TEXCOUNT_SHIFT)

/-- `D3DGLBufferObject::init_vbo`: rejects a length smaller than the
FVF vertex size, otherwise records format and FVF and defers to
`init_common`. -/
def init_vbo (s : BufferState) (length usage fvf pool : Nat) :
    Bool × BufferState × List Command :=
  if length < fvfVertexSize fvf then
    (false, s, [])
  else
    let s := { s with mFormat := D3DFMT_VERTEXDATA, mFvf := fvf }
    init_common s length usage pool

/-- `D3DGLBufferObject::init_ibo`. -/
def init_ibo (s : BufferState) (length usage format pool : Nat) :
    Bool × BufferState × List Command :=
  if format ≠ D3DFMT_INDEX16 ∧ format ≠ D3DFMT_INDEX32 then
    (false, s, [])
  else
    let s := { s with mFormat := format, mFvf := 0 }
    init_common s length usage pool

/-- Result of `D3DGLBufferObject::Lock`: the HRESULT, the returned
pointer (staging allocation identity and byte offset within it, none on
failure), whether the call entered the busy-wait loop on
`mUpdateInProgress`, and the post-call state. -/
structure LockResult where
  hr : Nat
  ptr : Option (Nat × Nat)
  waited : Bool
  state : BufferState
deriving DecidableEq, Repr

/-- Tail of `Lock` common to all successful paths: record the locked
range and return a pointer into the staging buffer at the locked
offset. -/
def lockFinish (s : BufferState) (offset length : Nat) (waited : Bool) :
    LockResult :=
  let s := { s with mLockedOffset := offset, mLockedLength := length }
  { hr := D3D_OK, ptr := some (s.mBufData.allocId, s.mLockedOffset)
    waited := waited, state := s }

/-- `D3DGLBufferObject::Lock`.  The busy-wait loop
`while(mUpdateInProgress) Sleep(1)` is modelled by its postcondition:
the loop exits exactly when the consumer thread has drained the counter
to zero; `waited` records whether the loop was entered at all. -/
def Lock (s : BufferState) (offset length flags : Nat) : LockResult :=
  if length = 0 ∧ 0 < offset then
    { hr := D3DERR_INVALIDCALL, ptr := none, waited := false, state := s }
  else
    let length := if length = 0 then s.mLength else length
    if s.mLength ≤ offset ∨ s.mLength - offset < length then
      { hr := D3DERR_INVALIDCALL, ptr := none, waited := false, state := s }
    else if flags &&& D3DLOCK_READONLY ≠ 0 ∧ s.mUsage &&& D3DUSAGE_WRITEONLY ≠ 0 then
      { hr := D3DERR_INVALIDCALL, ptr := none, waited := false, state := s }
    else
      let lt : LockType :=
        if flags &&& D3DLOCK_READONLY ≠ 0 then .LT_ReadOnly else .LT_Full
      if s.mLock ≠ .LT_Unlocked then
        { hr := D3DERR_INVALIDCALL, ptr := none, waited := false, state := s }
      else
        let s := { s with mLock := lt }
        if flags &&& D3DLOCK_DISCARD ≠ 0 then
          if 0 < s.mUpdateInProgress then
            let data_len := align16 s.mLength
            let s := { s with
              mBufData := ⟨s.nextAlloc, data_len, List.replicate data_len 0⟩
              nextAlloc := s.nextAlloc + 1 }
            lockFinish s offset length false
          else
            lockFinish s offset length false
        else if flags &&& D3DLOCK_NOOVERWRITE = 0 ∧ flags &&& D3DLOCK_READONLY = 0 then
          let w := 0 < s.mUpdateInProgress
          let s := { s with mUpdateInProgress := 0 }
          lockFinish s offset length w
        else
          lockFinish s offset length false

/-- `D3DGLBufferObject::Unlock`: fails on an unlocked buffer; for a
non-read-only lock increments the in-flight counter and submits one
LoadBufferDataCmd covering exactly the locked range; clears the locked
range and the lock state. -/
def Unlock (s : BufferState) : Nat × BufferState × List Command :=
  if s.mLock = .LT_Unlocked then
    (D3DERR_INVALIDCALL, s, [])
  else
    let r :=
      if s.mLock ≠ .LT_ReadOnly then
        ({ s with mUpdateInProgress := s.mUpdateInProgress + 1 },
         [Command.loadBufferData s.mLockedOffset s.mLockedLength s.mBufData.allocId])
      else
        (s, [])
    let s := r.1
    let s := { s with mLockedOffset := 0, mLockedLength := 0, mLock := .LT_Unlocked }
    (D3D_OK, s, r.2)

/-- `D3DGLBufferObject::resetBufferData`: increments the in-flight
counter, reallocates the staging buffer (and submits ResizeBufferCmd)
when the new length exceeds the current logical length or another
update is in flight, sets the new length, copies the new bytes in, and
submits a LoadBufferDataCmd covering the whole buffer. -/
def resetBufferData (s : BufferState) (data : List Nat) (length : Nat) :
    BufferState × List Command :=
  let s := { s with mUpdateInProgress := s.mUpdateInProgress + 1 }
  let r :=
    if s.mLength < length ∨ 1 < s.mUpdateInProgress then
      let data_len := align16 length
      ({ s with
          mBufData := ⟨s.nextAlloc, data_len, List.replicate data_len 0⟩
          nextAlloc := s.nextAlloc + 1 },
       [Command.resizeBuffer])
    else
      (s, [])
  let s := r.1
  let s := { s with mLength := length }
  let newBytes := data.take s.mLength ++ s.mBufData.bytes.drop s.mLength
  let s := { s with mBufData := { s.mBufData with bytes := newBytes } }
  (s, r.2 ++ [Command.loadBufferData 0 s.mLength s.mBufData.allocId])

/-- Bytes readable through a pointer into the current staging buffer at
byte offset `off`. -/
def readStaging (s : BufferState) (off len : Nat) : List Nat :=
  (s.mBufData.bytes.drop off).take len

/-- Staging buffer reallocated fresh in the discard path of Lock. -/
def discardRealloc (s : BufferState) : BufferState :=
  { s with
    mBufData := ⟨s.nextAlloc, align16 s.mLength, List.replicate (align16 s.mLength) 0⟩
    nextAlloc := s.nextAlloc + 1 }

/-! ### Reachability: operation sequences against one buffer object -/

/-- One producer-side operation on the buffer object, plus the
consumer-side execution of a pending upload command
(`loadBufferDataGL`), which decrements the in-flight counter. -/
inductive Op where
  | opInit (length usage pool : Nat)
  | opLock (offset length flags : Nat)
  | opUnlock
  | opReset (data : List Nat) (length : Nat)
  | opConsume
deriving DecidableEq, Repr

/-- State transformer of one operation. -/
def step (s : BufferState) (op : Op) : BufferState :=
  match op with
  | .opInit l u p => (init_common s l u p).2.1
  | .opLock o l f => (Lock s o l f).state
  | .opUnlock => (Unlock s).2.1
  | .opReset d l => (resetBufferData s d l).1
  | .opConsume => { s with mUpdateInProgress := s.mUpdateInProgress - 1 }

/-- Run a sequence of operations from a state. -/
def run (s : BufferState) (ops : List Op) : BufferState :=
  ops.foldl step s

/-- Validity of an operation: init_common passes its pool/usage
validation, and the lengths fed to the alignment computation stay clear
of 32-bit overflow. -/
def opValid (op : Op) : Prop :=
  match op with
  | .opInit l u p =>
      p ≠ D3DPOOL_SCRATCH ∧ ¬(p = D3DPOOL_MANAGED ∧ u &&& D3DUSAGE_DYNAMIC ≠ 0) ∧
      l + 15 < UINT_MOD
  | .opReset _ l => l + 15 < UINT_MOD
  | _ => True

/-- Capacity invariant of the staging buffer. -/
def CapInv (s : BufferState) : Prop :=
  s.mLength + 15 < UINT_MOD ∧ roundUp16 s.mLength ≤ s.mBufData.capacity

/-! ### Destructor model -/

/-- Phase of the destructor of D3DGLBufferObject: before the
conditional DestroyBufferCmd submission, inside the busy-wait loop on
`mUpdateInProgress`, and after the staging buffer has been freed. -/
inductive DtorPhase where
  | start
  | waiting
  | freed
deriving DecidableEq, Repr

/-- State of a destructor run: current phase, the GL buffer handle
`mBufferId`, the in-flight update counter, the commands submitted so
far, and whether the staging memory has been released. -/
structure DtorState where
  phase : DtorPhase
  bufferId : Nat
  inFlight : Nat
  cmds : List Command
  stagingFreed : Bool
deriving DecidableEq, Repr

/-- Destructor entry: nothing submitted, nothing freed. -/
def dtorStart (bufferId inFlight : Nat) : DtorState :=
  ⟨.start, bufferId, inFlight, [], false⟩

/-- Small-step semantics of the destructor interleaved with the
consumer thread.  The destructor submits DestroyBufferCmd exactly when
the handle is nonzero, then spins in `while(mUpdateInProgress)
Sleep(1)`; the consumer may execute a pending upload at any time,
decrementing the counter; the staging buffer is freed only when the
wait loop observes a zero counter. -/
inductive DtorStep : DtorState → DtorState → Prop where
  | submitDestroy (s : DtorState) (h : s.phase = .start) (hid : s.bufferId ≠ 0) :
      DtorStep s { s with
        phase := .waiting
        cmds := s.cmds ++ [Command.destroyBuffer s.bufferId] }
  | skipDestroy (s : DtorState) (h : s.phase = .start) (hid : s.bufferId = 0) :
      DtorStep s { s with phase := .waiting }
  | consume (s : DtorState) (h : 0 < s.inFlight) :
      DtorStep s { s with inFlight := s.inFlight - 1 }
  | freeStaging (s : DtorState) (h : s.phase = .waiting) (hz : s.inFlight = 0) :
      DtorStep s { s with phase := .freed, stagingFreed := true }

/-- Invariant of destructor runs. -/
def DtorInv (bid : Nat) (s : DtorState) : Prop :=
  s.bufferId = bid ∧
  (s.stagingFreed = true → s.inFlight = 0) ∧
  (s.phase = .start → s.cmds = []) ∧
  (s.phase ≠ .start → s.cmds = if bid ≠ 0 then [Command.destroyBuffer bid] else [])

/-! ### Specification-side definitions for the FVF vertex size -/

/-- Bytes of the position component, following the words of the
specification: 4 floats for an XYZRHW or XYZW position, 3 floats for an
XYZ position. -/
def posBytesSpec (fvf : Nat) : Nat :=
  if fvf &&& D3DFVF_XYZRHW = D3DFVF_XYZRHW ∨ fvf &&& D3DFVF_XYZW = D3DFVF_XYZW then 16
  else if fvf &&& D3DFVF_XYZ = D3DFVF_XYZ then 12
  else 0

/-- Bytes of the declared texture-coordinate sets, following the words
of the specification: 1 to 4 floats per declared set, selected by the
two-bit per-set format code. -/
def texBytesSpec (fvf : Nat) : Nat :=
  ∑ t ∈ Finset.range ((fvf &&& D3DFVF_TEXCOUNT_MASK) >>> D3DFVF_TEXCOUNT_SHIFT),
    4 * texfmtFloats ((fvf >>> (16 + t * 2)) &&& 0x03)

/-- The per-vertex size as the specification describes it: position
bytes, plus 3 floats for a normal, 4 bytes each for diffuse and
specular colors, plus the texture-coordinate bytes. -/
def fvfVertexSizeSpec (fvf : Nat) : Nat :=
  posBytesSpec fvf +
  (if fvf &&& D3DFVF_NORMAL ≠ 0 then 12 else 0) +
  (if fvf &&& D3DFVF_DIFFUSE ≠ 0 then 4 else 0) +
  (if fvf &&& D3DFVF_SPECULAR ≠ 0 then 4 else 0) +
  texBytesSpec fvf

/-! ### Concrete states used by witnesses and counterexamples -/

/-- A 32-byte buffer after successful construction. -/
def sampleBuffer : BufferState :=
  (init_common initialState 32 0 D3DPOOL_DEFAULT).2.1

/-- The sample buffer with a full lock outstanding. -/
def lockedBuffer : BufferState :=
  (Lock sampleBuffer 0 16 0).state

/-- The sample buffer after a full lock and unlock: one upload still in
flight. -/
def busyBuffer : BufferState :=
  (Unlock (Lock sampleBuffer 0 16 0).state).2.1

/-- A write-only 16-byte buffer. -/
def writeOnlyBuffer : BufferState :=
  (init_common initialState 16 D3DUSAGE_WRITEONLY D3DPOOL_DEFAULT).2.1

end D3DGL

namespace D3DGL

/-! ### Helper lemmas -/

/-- Lock on an already locked buffer always fails with no state change,
whatever the arguments. -/
theorem lock_of_locked (s : BufferState) (o l f : Nat)
    (h : s.mLock ≠ .LT_Unlocked) :
    Lock s o l f = ⟨D3DERR_INVALIDCALL, none, false, s⟩ := by
  simp only [Lock]
  split_ifs <;> simp_all

/-- Unlock on an unlocked buffer fails with no state change. -/
theorem unlock_of_unlocked (s : BufferState) (h : s.mLock = .LT_Unlocked) :
    Unlock s = (D3DERR_INVALIDCALL, s, []) := by
  unfold Unlock
  rw [if_pos h]

/-- Evaluation of a successful write lock (no read-only flag, valid
nonzero range, unlocked buffer). -/
theorem lock_write_eval (s : BufferState) (offset length flags : Nat)
    (hunlocked : s.mLock = .LT_Unlocked) (h0 : ¬ length = 0)
    (hoff : ¬ (s.mLength ≤ offset ∨ s.mLength - offset < length))
    (hro : flags &&& D3DLOCK_READONLY = 0) :
    Lock s offset length flags =
      (if flags &&& D3DLOCK_DISCARD ≠ 0 then
        (if 0 < s.mUpdateInProgress then
          lockFinish (discardRealloc { s with mLock := .LT_Full }) offset length false
        else lockFinish { s with mLock := .LT_Full } offset length false)
      else if flags &&& D3DLOCK_NOOVERWRITE = 0 then
        lockFinish { s with mLock := .LT_Full, mUpdateInProgress := 0 }
          offset length (0 < s.mUpdateInProgress)
      else lockFinish { s with mLock := .LT_Full } offset length false) := by
  have h1 : ¬ (length = 0 ∧ 0 < offset) := fun hc => h0 hc.1
  have h2 : ¬ (flags &&& D3DLOCK_READONLY ≠ 0 ∧
      s.mUsage &&& D3DUSAGE_WRITEONLY ≠ 0) := fun hc => hc.1 hro
  simp only [Lock, if_neg h1, if_neg h0, if_neg hoff, if_neg h2, hro,
    ne_eq, not_true_eq_false, if_false, hunlocked, not_false_eq_true,
    discardRealloc, false_and, and_true]

/-- Evaluation of a successful read-only lock. -/
theorem lock_readonly_eval (s : BufferState) (offset length : Nat)
    (hunlocked : s.mLock = .LT_Unlocked) (h0 : ¬ length = 0)
    (hoff : ¬ (s.mLength ≤ offset ∨ s.mLength - offset < length))
    (hwo : s.mUsage &&& D3DUSAGE_WRITEONLY = 0) :
    Lock s offset length D3DLOCK_READONLY =
      lockFinish { s with mLock := .LT_ReadOnly } offset length false := by
  have h1 : ¬ (length = 0 ∧ 0 < offset) := fun hc => h0 hc.1
  have h2 : ¬ (D3DLOCK_READONLY &&& D3DLOCK_READONLY ≠ 0 ∧
      s.mUsage &&& D3DUSAGE_WRITEONLY ≠ 0) := fun hc => hc.2 hwo
  have h3 : D3DLOCK_READONLY &&& D3DLOCK_READONLY ≠ 0 := by decide
  have h4 : ¬ (D3DLOCK_READONLY &&& D3DLOCK_DISCARD ≠ 0) := by decide
  have h5 : ¬ (D3DLOCK_READONLY &&& D3DLOCK_NOOVERWRITE = 0 ∧
      D3DLOCK_READONLY &&& D3DLOCK_READONLY = 0) := by decide
  simp only [Lock, if_neg h1, if_neg h0, if_neg hoff, if_neg h2, if_pos h3,
    if_neg h4, if_neg h5, hunlocked, ne_eq, not_true_eq_false, if_false]

/-- Unlock of a fully locked buffer submits one upload covering
exactly the locked range and increments the in-flight counter. -/
theorem unlock_of_full (st : BufferState) (h : st.mLock = .LT_Full) :
    Unlock st = (D3D_OK,
      { st with
        mUpdateInProgress := st.mUpdateInProgress + 1
        mLockedOffset := 0
        mLockedLength := 0
        mLock := .LT_Unlocked },
      [Command.loadBufferData st.mLockedOffset st.mLockedLength st.mBufData.allocId]) := by
  simp [Unlock, h]

/-- init_common on the scratch pool fails after assigning length, usage
and pool, touching nothing else. -/
theorem init_common_scratch (s : BufferState) (l u : Nat) :
    init_common s l u D3DPOOL_SCRATCH =
      (false, { s with mLength := l, mUsage := u, mPool := D3DPOOL_SCRATCH }, []) := by
  simp [init_common]

/-- init_common on the managed pool with dynamic usage fails after
assigning length, usage and pool, touching nothing else. -/
theorem init_common_managed_dynamic (s : BufferState) (l u : Nat)
    (h : u &&& D3DUSAGE_DYNAMIC ≠ 0) :
    init_common s l u D3DPOOL_MANAGED =
      (false, { s with mLength := l, mUsage := u, mPool := D3DPOOL_MANAGED }, []) := by
  simp [init_common, D3DPOOL_MANAGED, D3DPOOL_SCRATCH, h]

/-- An out-of-range lock request fails with no state change. -/
theorem lock_out_of_range (s : BufferState) (o l f : Nat)
    (hl : 1 ≤ l) (h : s.mLength < o + l) :
    Lock s o l f = ⟨D3DERR_INVALIDCALL, none, false, s⟩ := by
  simp only [Lock]
  rw [if_neg (by omega : ¬ (l = 0 ∧ 0 < o))]
  simp only [if_neg (by omega : ¬ l = 0)]
  rw [if_pos (by omega : s.mLength ≤ o ∨ s.mLength - o < l)]

/-- A read-only lock on a write-only buffer fails with no state
change. -/
theorem lock_readonly_on_writeonly (s : BufferState) (o l f : Nat)
    (hl : 1 ≤ l) (hrange : o + l ≤ s.mLength)
    (hro : f &&& D3DLOCK_READONLY ≠ 0)
    (hwo : s.mUsage &&& D3DUSAGE_WRITEONLY ≠ 0) :
    Lock s o l f = ⟨D3DERR_INVALIDCALL, none, false, s⟩ := by
  simp only [Lock]
  rw [if_neg (by omega : ¬ (l = 0 ∧ 0 < o))]
  simp only [if_neg (by omega : ¬ l = 0)]
  rw [if_neg (by omega : ¬ (s.mLength ≤ o ∨ s.mLength - o < l))]
  rw [if_pos ⟨hro, hwo⟩]

/-- A whole-buffer lock request with positive offset fails with no
state change. -/
theorem lock_zero_len_pos_offset_fails (s : BufferState) (o flags : Nat)
    (ho : 0 < o) :
    Lock s o 0 flags = ⟨D3DERR_INVALIDCALL, none, false, s⟩ := by
  simp only [Lock]
  rw [if_pos ⟨trivial, ho⟩]

/-- A whole-buffer lock (length 0, offset 0) on an unlocked nonempty
buffer succeeds and records the full range. -/
theorem lock_whole_buffer (s : BufferState) (flags : Nat)
    (hunlocked : s.mLock = .LT_Unlocked) (hlen : 0 < s.mLength)
    (hok : ¬ (flags &&& D3DLOCK_READONLY ≠ 0 ∧
      s.mUsage &&& D3DUSAGE_WRITEONLY ≠ 0)) :
    (Lock s 0 0 flags).hr = D3D_OK ∧
    (Lock s 0 0 flags).state.mLockedOffset = 0 ∧
    (Lock s 0 0 flags).state.mLockedLength = s.mLength := by
  simp only [Lock, true_and, lt_self_iff_false, if_false, if_true]
  rw [if_neg (by omega : ¬ (s.mLength ≤ 0 ∨ s.mLength - 0 < s.mLength))]
  rw [if_neg hok]
  rw [if_neg (by simp [hunlocked])]
  split_ifs <;> simp [lockFinish]

/-- The lock flag after any Lock call is either unchanged or the
requested lock type. -/
theorem lock_state_mLock (s : BufferState) (o l f : Nat) :
    (Lock s o l f).state.mLock = s.mLock ∨
    (Lock s o l f).state.mLock =
      (if f &&& D3DLOCK_READONLY ≠ 0 then LockType.LT_ReadOnly
       else LockType.LT_Full) := by
  simp only [Lock, lockFinish]
  split_ifs <;> first | (left; rfl) | (right; rfl)

/-- The lock flag after any Unlock call is Unlocked. -/
theorem unlock_mLock (s : BufferState) :
    (Unlock s).2.1.mLock = .LT_Unlocked := by
  simp only [Unlock]
  split_ifs with h1 h2 <;> first | exact h1 | rfl

end D3DGL

namespace D3DGL

/-- Masking with `~15` on a 32-bit value rounds down to a multiple of
16. -/
theorem land_mask16 (x : Nat) (hx : x < 2 ^ 32) :
    x &&& 0xFFFFFFF0 = x / 16 * 16 := by
  have h1 : (0xFFFFFFF0 : Nat) = (2 ^ 28 - 1) <<< 4 := by
    rw [Nat.shiftLeft_eq]; norm_num
  have h2 : x / 16 * 16 = (x >>> 4) <<< 4 := by
    rw [Nat.shiftLeft_eq, Nat.shiftRight_eq_div_pow]
  rw [h1, h2]
  apply Nat.eq_of_testBit_eq
  intro i
  simp only [Nat.testBit_and, Nat.testBit_shiftLeft, Nat.testBit_shiftRight,
    Nat.testBit_two_pow_sub_one]
  rcases lt_or_ge i 4 with h4 | h4
  · have hna : ¬ (4 ≤ i) := by omega
    simp [hna]
  · have hc : 4 + (i - 4) = i := by omega
    rcases lt_or_ge i 32 with h32 | h32
    · have hb : i - 4 < 28 := by omega
      simp [h4, hb, hc]
    · have hz : x.testBit i = false :=
        Nat.testBit_lt_two_pow
          (lt_of_lt_of_le hx (Nat.pow_le_pow_right (by norm_num) h32))
      simp [hz, hc]

/-- Below the 32-bit overflow threshold the alignment computation of
the code agrees with the mathematical rounding. -/
theorem align16_eq_roundUp16 (n : Nat) (h : n + 15 < UINT_MOD) :
    align16 n = roundUp16 n := by
  unfold UINT_MOD at h
  unfold align16 roundUp16 UINT_MOD
  rw [Nat.mod_eq_of_lt h, land_mask16 _ h]

theorem roundUp16_mono {n m : Nat} (h : n ≤ m) : roundUp16 n ≤ roundUp16 m :=
  Nat.mul_le_mul_right _ (Nat.div_le_div_right (by omega))

theorem le_roundUp16 (n : Nat) : n ≤ roundUp16 n := by
  unfold roundUp16
  have h1 := Nat.div_add_mod (n + 15) 16
  have h2 : (n + 15) % 16 < 16 := Nat.mod_lt _ (by norm_num)
  omega

theorem capInv_initialState : CapInv initialState := by
  constructor
  · norm_num [initialState, UINT_MOD]
  · norm_num [initialState, roundUp16]

/-- Lock never changes the logical length, and either keeps the staging
capacity or reallocates it to the aligned logical length. -/
theorem lock_state_len_cap (s : BufferState) (o l f : Nat) :
    (Lock s o l f).state.mLength = s.mLength ∧
    ((Lock s o l f).state.mBufData.capacity = s.mBufData.capacity ∨
     (Lock s o l f).state.mBufData.capacity = align16 s.mLength) := by
  simp only [Lock, lockFinish]
  split_ifs <;> simp

/-- Unlock changes neither the logical length nor the staging
capacity. -/
theorem unlock_state_len_cap (s : BufferState) :
    (Unlock s).2.1.mLength = s.mLength ∧
    (Unlock s).2.1.mBufData.capacity = s.mBufData.capacity := by
  simp only [Unlock]
  split_ifs <;> simp

/-- The capacity invariant is preserved by every valid operation. -/
theorem capInv_step (s : BufferState) (op : Op)
    (hs : CapInv s) (hop : opValid op) : CapInv (step s op) := by
  obtain ⟨hlen, hcap⟩ := hs
  cases op with
  | opInit l u p =>
    obtain ⟨h1, h2, h3⟩ := hop
    simp only [step, init_common]
    rw [if_neg h1, if_neg h2]
    refine ⟨h3, ?_⟩
    simp only
    rw [align16_eq_roundUp16 l h3]
  | opLock o l f =>
    obtain ⟨he, hc⟩ := lock_state_len_cap s o l f
    simp only [step, CapInv, he]
    rcases hc with hc | hc <;> rw [hc]
    · exact ⟨hlen, hcap⟩
    · rw [align16_eq_roundUp16 _ hlen]
      exact ⟨hlen, le_refl _⟩
  | opUnlock =>
    obtain ⟨he, hc⟩ := unlock_state_len_cap s
    simp only [step, CapInv, he, hc]
    exact ⟨hlen, hcap⟩
  | opReset d l =>
    have h3 : l + 15 < UINT_MOD := hop
    simp only [step, resetBufferData]
    split_ifs with h
    · refine ⟨h3, ?_⟩
      simp only
      rw [align16_eq_roundUp16 l h3]
    · push_neg at h
      refine ⟨h3, ?_⟩
      simp only
      exact le_trans (roundUp16_mono h.1) hcap
  | opConsume =>
    exact ⟨hlen, hcap⟩

/-- The capacity invariant holds along every valid run. -/
theorem capInv_run (s : BufferState) (ops : List Op)
    (hs : CapInv s) (h : ∀ op ∈ ops, opValid op) : CapInv (run s ops) := by
  induction ops generalizing s with
  | nil => exact hs
  | cons op rest ih =>
    exact ih (step s op) (capInv_step s op hs (h op (by simp)))
      (fun o ho => h o (by simp [ho]))

/-- Any operation that changes the lock flag either raises it from
Unlocked to ReadOnly or Full, or lowers it back to Unlocked. -/
theorem step_mLock_cases (s : BufferState) (op : Op)
    (h : (step s op).mLock ≠ s.mLock) :
    (s.mLock = .LT_Unlocked ∧
      ((step s op).mLock = .LT_ReadOnly ∨ (step s op).mLock = .LT_Full)) ∨
    (step s op).mLock = .LT_Unlocked := by
  cases op with
  | opInit l u p =>
    exfalso
    apply h
    simp only [step, init_common]
    split_ifs <;> rfl
  | opLock o l f =>
    by_cases hu : s.mLock = .LT_Unlocked
    · left
      refine ⟨hu, ?_⟩
      rcases lock_state_mLock s o l f with he | he
      · exact absurd he h
      · rw [step, he]
        split_ifs
        · exact Or.inl rfl
        · exact Or.inr rfl
    · rw [step, lock_of_locked s o l f hu] at h
      exact absurd rfl h
  | opUnlock =>
    exact Or.inr (unlock_mLock s)
  | opReset d l =>
    exfalso
    apply h
    simp only [step, resetBufferData]
    split_ifs <;> rfl
  | opConsume =>
    exact absurd rfl h

/-- The destructor invariant holds in every state reachable from the
destructor entry. -/
theorem dtorInv_reach (bid n : Nat) (s : DtorState)
    (h : Relation.ReflTransGen DtorStep (dtorStart bid n) s) :
    DtorInv bid s := by
  induction h with
  | refl =>
    refine ⟨rfl, by simp [dtorStart], fun _ => rfl, fun hc => absurd rfl hc⟩
  | tail hab hbc ih =>
    obtain ⟨h1, h2, h3, h4⟩ := ih
    cases hbc with
    | submitDestroy hb hid =>
      refine ⟨h1, h2, ?_, ?_⟩
      · intro hc
        exact absurd hc (by simp)
      · intro _
        have hbid : bid ≠ 0 := h1 ▸ hid
        show _ ++ [Command.destroyBuffer _] = _
        rw [h3 hb, h1, if_pos hbid]
        simp
    | skipDestroy hb hid =>
      refine ⟨h1, h2, ?_, ?_⟩
      · intro hc
        exact absurd hc (by simp)
      · intro _
        have hbid : bid = 0 := h1 ▸ hid
        show _ = _
        rw [h3 hb, hbid]
        simp
    | consume hb =>
      exact ⟨h1, fun hf => by rw [h2 hf], h3, h4⟩
    | freeStaging hb hz =>
      refine ⟨h1, fun _ => hz, ?_, ?_⟩
      · intro hc
        exact absurd hc (by simp)
      · intro _
        exact h4 (by simp [hb])

theorem drop_append_of_le {α : Type} (l₁ l₂ : List α) (n : Nat)
    (h : n ≤ l₁.length) :
    (l₁ ++ l₂).drop n = l₁.drop n ++ l₂ := by
  induction l₁ generalizing n with
  | nil =>
    have hn : n = 0 := by simpa using h
    simp [hn]
  | cons a t ih =>
    cases n with
    | zero => simp
    | succ m =>
      simp only [List.cons_append, List.drop_succ_cons]
      exact ih m (by simpa using h)

theorem take_append_of_le {α : Type} (l₁ l₂ : List α) (n : Nat)
    (h : n ≤ l₁.length) :
    (l₁ ++ l₂).take n = l₁.take n := by
  induction l₁ generalizing n with
  | nil =>
    have hn : n = 0 := by simpa using h
    simp [hn]
  | cons a t ih =>
    cases n with
    | zero => simp
    | succ m =>
      simp only [List.cons_append, List.take_succ_cons]
      rw [ih m (by simpa using h)]

/-- In the discard path with an update in flight the result points into
a fresh allocation, without touching the counter. -/
theorem discard_lock_fresh_alloc
    (s : BufferState) (offset length flags : Nat)
    (hunlocked : s.mLock = .LT_Unlocked) (hip : 0 < s.mUpdateInProgress)
    (hpos : 1 ≤ length) (hrange : offset + length ≤ s.mLength)
    (hd : flags &&& D3DLOCK_DISCARD ≠ 0) (hro : flags &&& D3DLOCK_READONLY = 0)
    (hfresh : s.mBufData.allocId ≠ s.nextAlloc) :
    (Lock s offset length flags).hr = D3D_OK ∧
    (Lock s offset length flags).waited = false ∧
    (Lock s offset length flags).state.mUpdateInProgress = s.mUpdateInProgress ∧
    (Lock s offset length flags).ptr =
      some ((Lock s offset length flags).state.mBufData.allocId, offset) ∧
    (Lock s offset length flags).state.mBufData.allocId ≠ s.mBufData.allocId := by
  have h0 : ¬ length = 0 := by omega
  have hoff : ¬ (s.mLength ≤ offset ∨ s.mLength - offset < length) := by omega
  rw [lock_write_eval s offset length flags hunlocked h0 hoff hro]
  rw [if_pos hd, if_pos hip]
  simp [lockFinish, discardRealloc]
  exact fun hc => hfresh hc.symm

/-- In the plain overwrite path the lock waits for the counter to drain
and returns a pointer into the unchanged allocation. -/
theorem nodiscard_lock_waits
    (s : BufferState) (offset length flags : Nat)
    (hunlocked : s.mLock = .LT_Unlocked)
    (hpos : 1 ≤ length) (hrange : offset + length ≤ s.mLength)
    (hd : flags &&& D3DLOCK_DISCARD = 0) (hn : flags &&& D3DLOCK_NOOVERWRITE = 0)
    (hro : flags &&& D3DLOCK_READONLY = 0) :
    (Lock s offset length flags).hr = D3D_OK ∧
    (Lock s offset length flags).state.mUpdateInProgress = 0 ∧
    (0 < s.mUpdateInProgress → (Lock s offset length flags).waited = true) ∧
    (Lock s offset length flags).ptr = some (s.mBufData.allocId, offset) := by
  have h0 : ¬ length = 0 := by omega
  have hoff : ¬ (s.mLength ≤ offset ∨ s.mLength - offset < length) := by omega
  rw [lock_write_eval s offset length flags hunlocked h0 hoff hro]
  rw [if_neg (by simp [hd]), if_pos hn]
  simp [lockFinish]

theorem foldl_add_eq_sum (f : Nat → Nat) (n acc : Nat) :
    (List.range n).foldl (fun a t => a + f t) acc =
      acc + ∑ t ∈ Finset.range n, f t := by
  induction n generalizing acc with
  | zero => simp
  | succ m ih =>
    rw [List.range_succ, List.foldl_append]
    simp only [List.foldl_cons, List.foldl_nil]
    rw [ih, Finset.sum_range_succ]
    omega

theorem texcoordsBytes_eq_sum (fvf count : Nat) :
    texcoordsBytes fvf count =
      ∑ t ∈ Finset.range count, 4 * texfmtFloats ((fvf >>> (16 + t * 2)) &&& 0x03) := by
  have h := foldl_add_eq_sum
    (fun t => 4 * texfmtFloats ((fvf >>> (16 + t * 2)) &&& 0x03)) count 0
  simpa [texcoordsBytes] using h

/-- The vertex size computed by init_vbo agrees with the per-component
description of the specification. -/
theorem fvfVertexSize_eq_spec (fvf : Nat) :
    fvfVertexSize fvf = fvfVertexSizeSpec fvf := by
  simp only [fvfVertexSize, fvfVertexSizeSpec, posBytesSpec]
  rw [texcoordsBytes_eq_sum]
  unfold texBytesSpec
  split_ifs <;> omega

theorem init_vbo_short_length_rejected (s : BufferState) (l u fvf p : Nat)
    (h : l < fvfVertexSize fvf) :
    init_vbo s l u fvf p = (false, s, []) := by
  simp only [init_vbo]
  rw [if_pos h]

end D3DGL

namespace D3DGL

/-! ### Claim theorems -/

/-- Claim C1: for every buffer in the Unlocked state and every valid
sub-range (offset, length) with positive length and
offset + length within the logical length, under any flags without the
read-only bit, Lock followed immediately by Unlock succeeds, leaves the
lock state Unlocked, and submits exactly one upload command whose range
is exactly the locked interval.  Lock itself submits no command (its
model result carries no command list). -/
theorem lock_unlock_uploads_locked_range (s : BufferState)
    (offset length flags : Nat) (hunlocked : s.mLock = .LT_Unlocked)
    (hpos : 1 ≤ length) (hrange : offset + length ≤ s.mLength)
    (hro : flags &&& D3DLOCK_READONLY = 0) :
    (Lock s offset length flags).hr = D3D_OK ∧
    (Unlock (Lock s offset length flags).state).1 = D3D_OK ∧
    (Unlock (Lock s offset length flags).state).2.1.mLock = .LT_Unlocked ∧
    (Unlock (Lock s offset length flags).state).2.2 =
      [Command.loadBufferData offset length
        (Lock s offset length flags).state.mBufData.allocId] := by
  have h0 : ¬ length = 0 := by omega
  have hoff : ¬ (s.mLength ≤ offset ∨ s.mLength - offset < length) := by omega
  rw [lock_write_eval s offset length flags hunlocked h0 hoff hro]
  split_ifs <;> simp [lockFinish, Unlock, discardRealloc]

/-- Witness for claim C1 at a 32-byte buffer, range (4, 8), flags 0. -/
theorem lock_unlock_uploads_locked_range_witness :
    sampleBuffer.mLock = .LT_Unlocked ∧
    (Lock sampleBuffer 4 8 0).hr = D3D_OK ∧
    (Unlock (Lock sampleBuffer 4 8 0).state).2.2 =
      [Command.loadBufferData 4 8 (Lock sampleBuffer 4 8 0).state.mBufData.allocId] := by
  refine ⟨by decide, ?_, ?_⟩
  · exact (lock_unlock_uploads_locked_range sampleBuffer 4 8 0 (by decide)
      (by decide) (by decide) (by decide)).1
  · exact (lock_unlock_uploads_locked_range sampleBuffer 4 8 0 (by decide)
      (by decide) (by decide) (by decide)).2.2.2

/-- Claim C2, counterexample: the bad-pool rejection in init_common is
not mutation free.  A scratch-pool init on a fresh buffer returns the
failure code but has overwritten the length field (0 before the call,
32 after it). -/
theorem init_failure_mutates_fields :
    (init_common initialState 32 0 D3DPOOL_SCRATCH).1 = false ∧
    (init_common initialState 32 0 D3DPOOL_SCRATCH).2.1.mLength = 32 ∧
    initialState.mLength = 0 := by
  decide

/-- Claim C2, amended: every validation error is detected synchronously
and returns a failure code distinct from success (false for
init_common, D3DERR_INVALIDCALL for Lock and Unlock).  The Lock and
Unlock validation errors (out-of-range lock, whole-buffer lock with
positive offset, read-only lock on a write-only buffer, double lock,
unlock when unlocked) perform no state mutation at all; the pool/usage
rejections in init_common leave length, usage and pool holding the
requested values but touch no other field, allocate no staging memory
and submit no command. -/
theorem validation_errors_fail_distinct_no_mutation :
    (∀ (s : BufferState) (l u : Nat),
      init_common s l u D3DPOOL_SCRATCH =
        (false, { s with mLength := l, mUsage := u, mPool := D3DPOOL_SCRATCH }, [])) ∧
    (∀ (s : BufferState) (l u : Nat), u &&& D3DUSAGE_DYNAMIC ≠ 0 →
      init_common s l u D3DPOOL_MANAGED =
        (false, { s with mLength := l, mUsage := u, mPool := D3DPOOL_MANAGED }, [])) ∧
    (∀ (s : BufferState) (o f : Nat), 0 < o →
      Lock s o 0 f = ⟨D3DERR_INVALIDCALL, none, false, s⟩) ∧
    (∀ (s : BufferState) (o l f : Nat), 1 ≤ l → s.mLength < o + l →
      Lock s o l f = ⟨D3DERR_INVALIDCALL, none, false, s⟩) ∧
    (∀ (s : BufferState) (o l f : Nat), 1 ≤ l → o + l ≤ s.mLength →
      f &&& D3DLOCK_READONLY ≠ 0 → s.mUsage &&& D3DUSAGE_WRITEONLY ≠ 0 →
      Lock s o l f = ⟨D3DERR_INVALIDCALL, none, false, s⟩) ∧
    (∀ (s : BufferState) (o l f : Nat), s.mLock ≠ .LT_Unlocked →
      Lock s o l f = ⟨D3DERR_INVALIDCALL, none, false, s⟩) ∧
    (∀ (s : BufferState), s.mLock = .LT_Unlocked →
      Unlock s = (D3DERR_INVALIDCALL, s, [])) :=
  ⟨init_common_scratch, init_common_managed_dynamic,
   lock_zero_len_pos_offset_fails, lock_out_of_range,
   lock_readonly_on_writeonly, lock_of_locked, unlock_of_unlocked⟩

/-- Witness for claim C2: an out-of-range lock on the 32-byte sample
buffer fails without mutation. -/
theorem validation_errors_fail_distinct_no_mutation_witness :
    (1 : Nat) ≤ 1 ∧ sampleBuffer.mLength < 40 + 1 ∧
    Lock sampleBuffer 40 1 0 = ⟨D3DERR_INVALIDCALL, none, false, sampleBuffer⟩ :=
  ⟨by decide, by decide,
   validation_errors_fail_distinct_no_mutation.2.2.2.1 sampleBuffer 40 1 0
     (by decide) (by decide)⟩

/-- Claim C3, counterexample: the capacity invariant fails on the
literal reading of reachability.  First, a failed (scratch-pool)
init_common leaves the length at 32 with no staging allocated.  Second,
even with only successful operations, the 32-bit wraparound in
`(length+15) & ~15` makes init_common allocate a zero-capacity staging
buffer for a length close to 2^32, and a subsequent shrinking
resetBufferData keeps that zero capacity while the aligned logical
length is still huge. -/
theorem capacity_claim_counterexample :
    ((run initialState [Op.opInit 32 0 3]).mBufData.capacity <
      roundUp16 (run initialState [Op.opInit 32 0 3]).mLength) ∧
    ((run initialState [Op.opInit (2 ^ 32 - 1) 0 0,
        Op.opReset [] (2 ^ 32 - 20)]).mBufData.capacity <
      roundUp16 (run initialState [Op.opInit (2 ^ 32 - 1) 0 0,
        Op.opReset [] (2 ^ 32 - 20)]).mLength) := by
  constructor
  · decide
  · decide

/-- Claim C3, amended: in every state reachable from the constructed
state by a sequence of init_common, Lock, Unlock, resetBufferData and
consumer steps in which every init_common call passes its pool/usage
validation and every length given to init_common or resetBufferData is
at most 2^32 - 16 (so the 32-bit alignment computation cannot wrap),
the staging capacity is at least the 16-byte-aligned rounding of the
logical length. -/
theorem capacity_invariant_validated_runs (ops : List Op)
    (h : ∀ op ∈ ops, opValid op) :
    roundUp16 (run initialState ops).mLength ≤
      (run initialState ops).mBufData.capacity :=
  (capInv_run initialState ops capInv_initialState h).2

/-- Witness for claim C3 on the one-step run that builds a 32-byte
buffer. -/
theorem capacity_invariant_validated_runs_witness :
    roundUp16 (run initialState [Op.opInit 32 0 0]).mLength ≤
      (run initialState [Op.opInit 32 0 0]).mBufData.capacity :=
  capacity_invariant_validated_runs [Op.opInit 32 0 0]
    (fun op hop => by
      simp only [List.mem_singleton] at hop
      subst hop
      exact ⟨by decide, by decide, by decide⟩)

/-- Claim C4: the lock flag only ever moves from Unlocked to ReadOnly
or Full and back to Unlocked, and a second Lock while a lock is
outstanding fails with the invalid-call code and leaves the whole
state, in particular the lock type and the locked offset and length, of
the first lock unchanged. -/
theorem lock_cas_transitions_and_double_lock :
    (∀ (s : BufferState) (op : Op), (step s op).mLock ≠ s.mLock →
      (s.mLock = .LT_Unlocked ∧
        ((step s op).mLock = .LT_ReadOnly ∨ (step s op).mLock = .LT_Full)) ∨
      (step s op).mLock = .LT_Unlocked) ∧
    (∀ (s : BufferState) (o l f : Nat), s.mLock ≠ .LT_Unlocked →
      (Lock s o l f).hr = D3DERR_INVALIDCALL ∧ (Lock s o l f).state = s) :=
  ⟨step_mLock_cases,
   fun s o l f h => by rw [lock_of_locked s o l f h]; exact ⟨rfl, rfl⟩⟩

/-- Witness for claim C4: a second Lock on a locked buffer fails and
changes nothing. -/
theorem lock_cas_transitions_and_double_lock_witness :
    lockedBuffer.mLock ≠ .LT_Unlocked ∧
    (Lock lockedBuffer 0 4 0).hr = D3DERR_INVALIDCALL ∧
    (Lock lockedBuffer 0 4 0).state = lockedBuffer := by
  refine ⟨by decide, ?_, ?_⟩
  · exact (lock_cas_transitions_and_double_lock.2 lockedBuffer 0 4 0 (by decide)).1
  · exact (lock_cas_transitions_and_double_lock.2 lockedBuffer 0 4 0 (by decide)).2

/-- Claim C5: with an update in flight, a discard lock returns a
pointer into a freshly reallocated backing allocation distinct from the
pre-lock one, without waiting on the counter, while a lock with neither
discard, no-overwrite nor read-only flags drains the in-flight counter
to zero before returning a pointer into the same backing allocation as
before the call.  The freshness hypothesis `allocId ≠ nextAlloc` states
that the model allocator never returns the currently held
allocation. -/
theorem discard_fresh_vs_blocking_same_alloc :
    (∀ (s : BufferState) (offset length flags : Nat),
      s.mLock = .LT_Unlocked → 0 < s.mUpdateInProgress →
      1 ≤ length → offset + length ≤ s.mLength →
      flags &&& D3DLOCK_DISCARD ≠ 0 → flags &&& D3DLOCK_READONLY = 0 →
      s.mBufData.allocId ≠ s.nextAlloc →
      (Lock s offset length flags).hr = D3D_OK ∧
      (Lock s offset length flags).waited = false ∧
      (Lock s offset length flags).state.mUpdateInProgress = s.mUpdateInProgress ∧
      (Lock s offset length flags).ptr =
        some ((Lock s offset length flags).state.mBufData.allocId, offset) ∧
      (Lock s offset length flags).state.mBufData.allocId ≠ s.mBufData.allocId) ∧
    (∀ (s : BufferState) (offset length flags : Nat),
      s.mLock = .LT_Unlocked → 1 ≤ length → offset + length ≤ s.mLength →
      flags &&& D3DLOCK_DISCARD = 0 → flags &&& D3DLOCK_NOOVERWRITE = 0 →
      flags &&& D3DLOCK_READONLY = 0 →
      (Lock s offset length flags).hr = D3D_OK ∧
      (Lock s offset length flags).state.mUpdateInProgress = 0 ∧
      (0 < s.mUpdateInProgress → (Lock s offset length flags).waited = true) ∧
      (Lock s offset length flags).ptr = some (s.mBufData.allocId, offset)) :=
  ⟨fun s offset length flags h1 h2 h3 h4 h5 h6 h7 =>
    discard_lock_fresh_alloc s offset length flags h1 h2 h3 h4 h5 h6 h7,
   fun s offset length flags h1 h2 h3 h4 h5 h6 =>
    nodiscard_lock_waits s offset length flags h1 h2 h3 h4 h5 h6⟩

/-- Witness for claim C5: a discard lock on a buffer with one upload in
flight yields a fresh allocation without waiting. -/
theorem discard_fresh_vs_blocking_same_alloc_witness :
    busyBuffer.mLock = .LT_Unlocked ∧ 0 < busyBuffer.mUpdateInProgress ∧
    (Lock busyBuffer 0 16 D3DLOCK_DISCARD).state.mBufData.allocId ≠
      busyBuffer.mBufData.allocId ∧
    (Lock busyBuffer 0 16 D3DLOCK_DISCARD).waited = false := by
  refine ⟨by decide, by decide, ?_, ?_⟩
  · exact (discard_fresh_vs_blocking_same_alloc.1 busyBuffer 0 16 D3DLOCK_DISCARD
      (by decide) (by decide) (by decide) (by decide) (by decide) (by decide)
      (by decide)).2.2.2.2
  · exact (discard_fresh_vs_blocking_same_alloc.1 busyBuffer 0 16 D3DLOCK_DISCARD
      (by decide) (by decide) (by decide) (by decide) (by decide) (by decide)
      (by decide)).2.1

/-- Claim C6: along every destructor run, a DestroyBufferCmd is in the
submitted commands if and only if the GPU handle is nonzero (once the
submission point has been passed), and whenever the staging buffer has
been freed the in-flight counter is zero: the destructor waited for the
counter to drain before the free. -/
theorem dtor_destroy_iff_handle_and_drain_before_free (bid n : Nat)
    (s : DtorState)
    (h : Relation.ReflTransGen DtorStep (dtorStart bid n) s) :
    (s.stagingFreed = true → s.inFlight = 0) ∧
    (s.phase ≠ .start → (Command.destroyBuffer bid ∈ s.cmds ↔ bid ≠ 0)) := by
  obtain ⟨h1, h2, h3, h4⟩ := dtorInv_reach bid n s h
  refine ⟨h2, fun hp => ?_⟩
  rw [h4 hp]
  by_cases hb : bid = 0 <;> simp [hb]

/-- Witness for claim C6 on the run: submit destroy, consume the one
pending upload, free. -/
theorem dtor_destroy_iff_handle_and_drain_before_free_witness :
    ((⟨.freed, 1, 0, [Command.destroyBuffer 1], true⟩ : DtorState).stagingFreed = true →
      (⟨.freed, 1, 0, [Command.destroyBuffer 1], true⟩ : DtorState).inFlight = 0) ∧
    ((⟨.freed, 1, 0, [Command.destroyBuffer 1], true⟩ : DtorState).phase ≠ .start →
      (Command.destroyBuffer 1 ∈
        (⟨.freed, 1, 0, [Command.destroyBuffer 1], true⟩ : DtorState).cmds ↔
       (1 : Nat) ≠ 0)) :=
  dtor_destroy_iff_handle_and_drain_before_free 1 1 _
    (Relation.ReflTransGen.head
      (DtorStep.submitDestroy (dtorStart 1 1) rfl (by decide))
      (Relation.ReflTransGen.head
        (DtorStep.consume _ (by decide))
        (Relation.ReflTransGen.head
          (DtorStep.freeStaging _ rfl rfl)
          Relation.ReflTransGen.refl)))

end D3DGL

namespace D3DGL

/-- Claim C7, counterexample: for a new length close to 2^32 the
alignment computation wraps around, so resetBufferData growing a
32-byte buffer to length 2^32 - 1 allocates a staging buffer of
capacity 0, far below the 16-byte-aligned rounding of the new length
(the capacity computed by the code does not depend on the content
bytes). -/
theorem reset_overflow_counterexample :
    sampleBuffer.mBufData.capacity < 2 ^ 32 - 1 ∧
    (resetBufferData sampleBuffer [] (2 ^ 32 - 1)).1.mLength = 2 ^ 32 - 1 ∧
    (resetBufferData sampleBuffer [] (2 ^ 32 - 1)).1.mBufData.capacity <
      roundUp16 (2 ^ 32 - 1) := by
  decide

/-- Claim C7, amended: for every buffer whose logical length fits its
staging capacity, and every new content of length greater than that
capacity but at most 2^32 - 16 (so the 32-bit alignment computation
cannot wrap), after resetBufferData the staging capacity is at least
the 16-byte-aligned rounding of the new length, the logical length
equals the new length, and a subsequent read-only lock of any nonempty
sub-range (on an unlocked, not write-only buffer) returns a pointer
through which exactly the corresponding new content bytes are
readable. -/
theorem reset_grow_capacity_and_readonly_visibility (s : BufferState)
    (data : List Nat) (length offset len : Nat)
    (hgrow : s.mBufData.capacity < length)
    (hwf : s.mLength ≤ s.mBufData.capacity)
    (hdata : data.length = length)
    (hbound : length + 15 < UINT_MOD)
    (hul : s.mLock = .LT_Unlocked)
    (hwo : s.mUsage &&& D3DUSAGE_WRITEONLY = 0)
    (hlen : 1 ≤ len) (hrange : offset + len ≤ length) :
    roundUp16 length ≤ (resetBufferData s data length).1.mBufData.capacity ∧
    (resetBufferData s data length).1.mLength = length ∧
    (Lock (resetBufferData s data length).1 offset len D3DLOCK_READONLY).hr = D3D_OK ∧
    (Lock (resetBufferData s data length).1 offset len D3DLOCK_READONLY).ptr =
      some ((resetBufferData s data length).1.mBufData.allocId, offset) ∧
    readStaging
      (Lock (resetBufferData s data length).1 offset len D3DLOCK_READONLY).state
      offset len = (data.drop offset).take len := by
  have hcond : s.mLength < length ∨ 1 < s.mUpdateInProgress + 1 := by omega
  have hs1 : (resetBufferData s data length).1 =
      { s with
        mUpdateInProgress := s.mUpdateInProgress + 1
        mLength := length
        mBufData := ⟨s.nextAlloc, align16 length,
          data.take length ++ (List.replicate (align16 length) 0).drop length⟩
        nextAlloc := s.nextAlloc + 1 } := by
    simp only [resetBufferData]
    rw [if_pos hcond]
  rw [hs1]
  set s1 : BufferState :=
    { s with
      mUpdateInProgress := s.mUpdateInProgress + 1
      mLength := length
      mBufData := ⟨s.nextAlloc, align16 length,
        data.take length ++ (List.replicate (align16 length) 0).drop length⟩
      nextAlloc := s.nextAlloc + 1 } with hs1def
  have hlock : Lock s1 offset len D3DLOCK_READONLY =
      lockFinish { s1 with mLock := .LT_ReadOnly } offset len false := by
    apply lock_readonly_eval
    · rw [hs1def]; exact hul
    · omega
    · rw [hs1def]
      simp only
      omega
    · rw [hs1def]; exact hwo
  rw [hlock]
  have hcap : align16 length = roundUp16 length := align16_eq_roundUp16 length hbound
  refine ⟨?_, ?_, rfl, rfl, ?_⟩
  · rw [hs1def]
    simp only
    rw [hcap]
  · rw [hs1def]
  · rw [hs1def]
    simp only [readStaging, lockFinish]
    have htake : List.take length data = data := by
      rw [← hdata]
      exact List.take_length data
    rw [htake]
    rw [drop_append_of_le data _ offset (by omega)]
    rw [take_append_of_le (data.drop offset) _ len (by simp; omega)]

/-- Witness for claim C7: grow the 32-byte sample buffer to 40 bytes of
sevens and read the sub-range (2, 4) back through a read-only lock. -/
theorem reset_grow_capacity_and_readonly_visibility_witness :
    sampleBuffer.mBufData.capacity < 40 ∧
    (resetBufferData sampleBuffer (List.replicate 40 7) 40).1.mLength = 40 ∧
    readStaging
      (Lock (resetBufferData sampleBuffer (List.replicate 40 7) 40).1 2 4
        D3DLOCK_READONLY).state 2 4 =
      ((List.replicate 40 7).drop 2).take 4 := by
  refine ⟨by decide, ?_, ?_⟩
  · exact (reset_grow_capacity_and_readonly_visibility sampleBuffer
      (List.replicate 40 7) 40 2 4 (by decide) (by decide) (by decide) (by decide)
      (by decide) (by decide) (by decide) (by decide)).2.1
  · exact (reset_grow_capacity_and_readonly_visibility sampleBuffer
      (List.replicate 40 7) 40 2 4 (by decide) (by decide) (by decide) (by decide)
      (by decide) (by decide) (by decide) (by decide)).2.2.2.2

/-- Claim C8, counterexample: Lock with length 0 and offset 0 does not
succeed for every buffer.  It fails on a successfully constructed
zero-length buffer, on a buffer that is already locked, and on a
write-only buffer when the read-only flag is also passed. -/
theorem lock_whole_buffer_counterexample :
    ((init_common initialState 0 0 D3DPOOL_DEFAULT).1 = true ∧
     (Lock (init_common initialState 0 0 D3DPOOL_DEFAULT).2.1 0 0 0).hr =
       D3DERR_INVALIDCALL) ∧
    (Lock lockedBuffer 0 0 0).hr = D3DERR_INVALIDCALL ∧
    (Lock writeOnlyBuffer 0 0 D3DLOCK_READONLY).hr = D3DERR_INVALIDCALL := by
  decide

/-- Claim C8, amended: for every unlocked buffer with nonzero logical
length and flags passing the read-only/write-only check, Lock with
length 0 and offset 0 succeeds and locks the entire buffer; Lock with
length 0 and positive offset always fails with the invalid-call code
and no state change. -/
theorem lock_zero_length_lock_semantics :
    (∀ (s : BufferState) (flags : Nat),
      s.mLock = .LT_Unlocked → 0 < s.mLength →
      ¬ (flags &&& D3DLOCK_READONLY ≠ 0 ∧ s.mUsage &&& D3DUSAGE_WRITEONLY ≠ 0) →
      (Lock s 0 0 flags).hr = D3D_OK ∧
      (Lock s 0 0 flags).state.mLockedOffset = 0 ∧
      (Lock s 0 0 flags).state.mLockedLength = s.mLength) ∧
    (∀ (s : BufferState) (o flags : Nat), 0 < o →
      Lock s o 0 flags = ⟨D3DERR_INVALIDCALL, none, false, s⟩) :=
  ⟨lock_whole_buffer, lock_zero_len_pos_offset_fails⟩

/-- Witness for claim C8: a whole-buffer lock of the 32-byte sample
buffer records the range (0, 32). -/
theorem lock_zero_length_lock_semantics_witness :
    sampleBuffer.mLock = .LT_Unlocked ∧ 0 < sampleBuffer.mLength ∧
    (Lock sampleBuffer 0 0 0).hr = D3D_OK ∧
    (Lock sampleBuffer 0 0 0).state.mLockedLength = sampleBuffer.mLength := by
  refine ⟨by decide, by decide, ?_, ?_⟩
  · exact (lock_zero_length_lock_semantics.1 sampleBuffer 0 (by decide) (by decide)
      (by decide)).1
  · exact (lock_zero_length_lock_semantics.1 sampleBuffer 0 (by decide) (by decide)
      (by decide)).2.2

/-- Claim C9: Unlock on a buffer whose lock state is Unlocked returns
the invalid-call code, submits no command, and changes no field. -/
theorem unlock_unlocked_fails_no_upload (s : BufferState)
    (h : s.mLock = .LT_Unlocked) :
    Unlock s = (D3DERR_INVALIDCALL, s, []) :=
  unlock_of_unlocked s h

/-- Witness for claim C9 on the freshly constructed state. -/
theorem unlock_unlocked_fails_no_upload_witness :
    initialState.mLock = .LT_Unlocked ∧
    Unlock initialState = (D3DERR_INVALIDCALL, initialState, []) :=
  ⟨rfl, unlock_unlocked_fails_no_upload initialState rfl⟩

/-- Claim C10: init_vbo computes the per-vertex byte size from the FVF
flags exactly as described (4 floats for an XYZRHW or XYZW position, 3
floats for XYZ, 3 floats for a normal, 4 bytes each for diffuse and
specular, 1 to 4 floats per declared texture-coordinate set), and
whenever the requested length is smaller than this size it returns
false with no state change, no staging allocation and no command. -/
theorem init_vbo_fvf_size_and_rejection :
    (∀ fvf, fvfVertexSize fvf = fvfVertexSizeSpec fvf) ∧
    (∀ (s : BufferState) (l u fvf p : Nat), l < fvfVertexSize fvf →
      init_vbo s l u fvf p = (false, s, [])) :=
  ⟨fvfVertexSize_eq_spec, init_vbo_short_length_rejected⟩

/-- Witness for claim C10: a 5-byte request for an XYZ vertex format
(12 bytes per vertex) is rejected without effect. -/
theorem init_vbo_fvf_size_and_rejection_witness :
    5 < fvfVertexSize D3DFVF_XYZ ∧
    init_vbo initialState 5 0 D3DFVF_XYZ 0 = (false, initialState, []) :=
  ⟨by decide,
   init_vbo_fvf_size_and_rejection.2 initialState 5 0 D3DFVF_XYZ 0 (by decide)⟩

end D3DGL
